import Mathlib

/-!
Shallow embedding of the `pythainlp.tokenize` module
(`src/pythainlp/tokenize/__init__.py`) and proofs about its
natural-language specification.

The module under verification is a dispatcher: the concrete segmentation
engines (`newmm`, `longest`, `multi_cut`, `deepcut`, `pyicu`, `tcc`,
`etcc`) and the corpus provider live outside the file, so they are
modelled as abstract functions packaged in an `Env` record.  Everything
the dispatcher itself does — input guarding, engine selection, dictionary
resolution, whitespace post-processing, the syllable two-pass
composition, the dictionary builder and the `Tokenizer` facade — is
translated directly from the source.
-/

namespace PyThaiNLP

/-- A `marisa_trie.Trie`: an immutable dictionary keyed by a vocabulary of
strings.  The trie's internal structure is irrelevant to the dispatcher,
which only constructs tries and passes them around, so we keep the
vocabulary it was built from.  `list(trie)` (used by the `deepcut` branch)
yields the vocabulary. -/
structure Trie where
  words : List String
  deriving DecidableEq, Repr

/-- The `text` argument of the entry points.  Python allows any object
here; the source guards every entry point with
`if not text or not isinstance(text, str): return []`, so the only
distinction that matters is string vs. non-string (`nonstr` covers
`None`, numbers, and every other non-string value). -/
inductive PyText where
  | str (s : String)
  | nonstr
  deriving DecidableEq, Repr

/-- The `dict_source` argument of `dict_trie`
(`Union[str, Iterable[str], Trie]`, plus invalid values).  `other` is a
value of any further type (e.g. a number); `typeName` records its Python
type's name and `isTruthy` its Python truthiness. -/
inductive DictSource where
  | trie (t : Trie)
  | path (p : String)
  | iter (words : List String)
  | other (typeName : String) (isTruthy : Bool)
  deriving DecidableEq, Repr

/-- Python exceptions the module can raise. -/
inductive PyErr where
  | typeError (msg : String)
  | ioError (path : String)
  deriving DecidableEq, Repr

/-- Python truthiness of a `dict_source` value, as used by
`Tokenizer.__init__`'s `if custom_dict:` test: an empty trie, empty
string and empty iterable are falsy. -/
def DictSource.truthy : DictSource → Bool
  | .trie t => !t.words.isEmpty
  | .path p => !(p = "")
  | .iter ws => !ws.isEmpty
  | .other _ b => b

/-- The external collaborators of the dispatcher: the corpus provider
(`thai_words()`, `thai_syllables()`, `get_corpus(...)`), the filesystem
(`fs p` is the result of `open(p).read().splitlines()`, `none` when the
file cannot be read), and the per-engine `segment` functions, all of
which live outside the file under verification. -/
structure Env where
  thai_words : List String
  thai_syllables : List String
  words_th_frozen : List String
  fs : String → Option (List String)
  newmm_segment : String → Trie → List String
  longest_segment : String → Trie → List String
  multi_cut_segment : String → Trie → List String
  deepcut_segment_with_dict : String → List String → List String
  deepcut_segment : String → List String
  icu_segment : String → List String
  tcc_segment : String → List String
  etcc_segment : String → List String

/-- `DEFAULT_DICT_TRIE = Trie(thai_words())`. -/
def DEFAULT_DICT_TRIE (env : Env) : Trie := ⟨env.thai_words⟩

/-- `FROZEN_DICT_TRIE = Trie(get_corpus("words_th_frozen_201810.txt"))`. -/
def FROZEN_DICT_TRIE (env : Env) : Trie := ⟨env.words_th_frozen⟩

/-- Modelled from the spec: the dictionary-based engines (`newmm`,
`longest`, `multi_cut`) are external to the file under verification and,
per the spec's dispatch table, each one "uses `custom_dict` if given,
else the default trie".  We model that engine-internal resolution
explicitly at the dispatch boundary, so each engine function receives the
already-resolved trie. -/
def resolveDict (env : Env) (custom_dict : Option Trie) : Trie :=
  custom_dict.getD (DEFAULT_DICT_TRIE env)

/-- `token.strip(" ")`: remove the ASCII space character — and only that
character — from both ends of the token. -/
def stripSpaces (t : String) : String :=
  ⟨((t.data.dropWhile (fun c => c == ' ')).reverse.dropWhile
      (fun c => c == ' ')).reverse⟩

/-- `word_tokenize(text, custom_dict=None, engine="newmm",
keep_whitespace=True)`: guard non-string/empty input, dispatch on the
engine name (unrecognized names fall through to `newmm`), then apply the
`keep_whitespace=False` post-processing
`[token.strip(" ") for token in segments if token.strip(" ")]`. -/
def word_tokenize (env : Env) (text : PyText) (custom_dict : Option Trie)
    (engine : String) (keep_whitespace : Bool) : List String :=
  match text with
  | .nonstr => []
  | .str s =>
    if s = "" then []
    else
      let segments :=
        if engine = "newmm" ∨ engine = "onecut" then
          env.newmm_segment s (resolveDict env custom_dict)
        else if engine = "longest" then
          env.longest_segment s (resolveDict env custom_dict)
        else if engine = "mm" ∨ engine = "multi_cut" then
          env.multi_cut_segment s (resolveDict env custom_dict)
        else if engine = "deepcut" then
          -- `if custom_dict:` — `None` and an empty trie are both falsy
          match custom_dict with
          | some t =>
            if t.words.isEmpty then env.deepcut_segment s
            else env.deepcut_segment_with_dict s t.words
          | none => env.deepcut_segment s
        else if engine = "ulmfit" then
          env.newmm_segment s (FROZEN_DICT_TRIE env)
        else if engine = "icu" then
          env.icu_segment s
        else
          env.newmm_segment s (resolveDict env custom_dict)
      if keep_whitespace then segments
      else segments.filterMap (fun token =>
        let t := stripSpaces token
        if t = "" then none else some t)

/-- The fixed message of the `TypeError` raised by `dict_trie`. -/
def dict_source_type_error_msg : String :=
  "Type of dict_source must be marisa_trie.Trie, or Iterable[str], or str (path to source file)"

/-- `dict_trie(dict_source)`: a trie is returned unchanged; a string is a
file path whose lines become the vocabulary (a read failure propagates as
an IOError); any other iterable of strings is turned into a trie; any
other type raises a `TypeError` with a fixed message. -/
def dict_trie (env : Env) (dict_source : DictSource) : Except PyErr Trie :=
  match dict_source with
  | .trie t => .ok t
  | .path p =>
    match env.fs p with
    | some lines => .ok ⟨lines⟩
    | none => .error (.ioError p)
  | .iter ws => .ok ⟨ws⟩
  | .other _ _ => .error (.typeError dict_source_type_error_msg)

/-- The stderr line printed by `dict_word_tokenize`. -/
def deprecation_msg : String :=
  "Deprecated. Use word_tokenize() with a custom_dict argument instead."

/-- `dict_word_tokenize(text, custom_dict=DEFAULT_DICT_TRIE,
engine="newmm", keep_whitespace=True)`: prints a deprecation line to
stderr and forwards to `word_tokenize` with the same arguments.
`custom_dict = none` models an omitted argument, which Python resolves to
the default value `DEFAULT_DICT_TRIE`.  The result is the pair
(returned tokens, lines written to stderr). -/
def dict_word_tokenize (env : Env) (text : PyText)
    (custom_dict : Option Trie) (engine : String) (keep_whitespace : Bool) :
    List String × List String :=
  (word_tokenize env text (some (custom_dict.getD (DEFAULT_DICT_TRIE env)))
      engine keep_whitespace,
   [deprecation_msg])

/-- Group a character list into maximal runs of characters of the same
class under `p` (runs alternate between `p`-characters and
non-`p`-characters; every run is nonempty). -/
def chunksBy (p : Char → Bool) (l : List Char) : List (List Char) :=
  l.foldr (fun c acc =>
    match acc with
    | (d :: run) :: rest =>
      if p c == p d then (c :: d :: run) :: rest
      else [c] :: (d :: run) :: rest
    | _ => [[c]]) []

/-- Assemble `re.split(r" +", ·, maxsplit)` segments from the alternating
runs produced by `chunksBy (· == ' ')`: while the split budget lasts,
each space run is a separator ending the current segment; once the budget
is exhausted, space runs are kept verbatim inside the final segment. -/
def assembleSplit : Nat → List Char → List (List Char) → List (List Char)
  | _, cur, [] => [cur]
  | budget, cur, chunk :: rest =>
    if chunk.head? = some ' ' then
      match budget with
      | 0 => assembleSplit 0 (cur ++ chunk) rest
      | b + 1 => cur :: assembleSplit b [] rest
    else assembleSplit budget (cur ++ chunk) rest

/-- `re.split(r" +", text, maxsplit)`: split `text` at the leftmost
`maxsplit` maximal runs of ASCII spaces; the remainder (spaces included)
is the final segment. -/
def reSplitSpaces (text : String) (maxsplit : Nat) : List String :=
  (assembleSplit maxsplit [] (chunksBy (fun c => c == ' ') text.data)).map
    (fun cs => ⟨cs⟩)

/-- Like `assembleSplit` but with no split budget: every maximal space
run is a separator. -/
def assembleSplitAll : List Char → List (List Char) → List (List Char)
  | cur, [] => [cur]
  | cur, chunk :: rest =>
    if chunk.head? = some ' ' then cur :: assembleSplitAll [] rest
    else assembleSplitAll (cur ++ chunk) rest

/-- The behavior the spec ascribes to `sent_tokenize(·, "whitespace")`:
split at every maximal run of one or more ASCII space characters, however
many runs the input contains (i.e. `re.split(r" +", text)` with no
`maxsplit` limit). -/
def splitOnAllSpaceRuns (text : String) : List String :=
  (assembleSplitAll [] (chunksBy (fun c => c == ' ') text.data)).map
    (fun cs => ⟨cs⟩)

/-- Python whitespace for `str.split()` with no argument (the common
whitespace code points; the source delegates to Python's Unicode
definition, of which this is the subset relevant here). -/
def isPySpace (c : Char) : Bool :=
  c == ' ' || c == '\t' || c == '\n' || c == '\r' || c == '\x0b' ||
    c == '\x0c' || c == '\x1c' || c == '\x1d' || c == '\x1e' ||
    c == '\x1f' || c == '\x85' || c == '\xa0'

/-- `text.split()`: split on runs of generic whitespace, discarding the
separators and dropping empty segments. -/
def pySplitWhitespace (s : String) : List String :=
  ((chunksBy isPySpace s.data).filter
      (fun chunk => chunk.all (fun c => !isPySpace c))).map
    (fun cs => ⟨cs⟩)

/-- `sent_tokenize(text, engine="whitespace+newline")`: guard
non-string/empty input; for `engine="whitespace"` the source runs
`re.split(r" +", text, re.U)` — note that `re.U` (value 32) is passed in
`re.split`'s `maxsplit` position, so at most 32 splits are performed;
every other engine value runs `text.split()`. -/
def sent_tokenize (text : PyText) (engine : String) : List String :=
  match text with
  | .nonstr => []
  | .str s =>
    if s = "" then []
    else if engine = "whitespace" then reSplitSpaces s 32
    else pySplitWhitespace s

/-- `subword_tokenize(text, engine="tcc")`: guard non-string/empty input,
then dispatch to the external `etcc` or (default) `tcc` segmenter. -/
def subword_tokenize (env : Env) (text : PyText) (engine : String) :
    List String :=
  match text with
  | .nonstr => []
  | .str s =>
    if s = "" then []
    else if engine = "etcc" then env.etcc_segment s
    else env.tcc_segment s

/-- `syllable_tokenize(text)`: guard non-string/empty input; run
`word_tokenize(text)` (all defaults: `newmm`, no custom dictionary,
whitespace kept); build one trie from `thai_syllables()` via `dict_trie`;
re-tokenize each word with that trie as custom dictionary, concatenating
the results.  (`dict_trie` on an iterable never fails, so the error
branch is unreachable.) -/
def syllable_tokenize (env : Env) (text : PyText) : List String :=
  match text with
  | .nonstr => []
  | .str s =>
    if s = "" then []
    else
      let words := word_tokenize env (.str s) none "newmm" true
      match dict_trie env (.iter env.thai_syllables) with
      | .ok trie =>
        words.flatMap (fun word =>
          word_tokenize env (.str word) (some trie) "newmm" true)
      | .error _ => []

/-- The syllable algorithm exactly as the spec's words state it (the
refinement target for `syllable_tokenize`): run `word_tokenize` on the
full input with the `newmm` engine, the default word dictionary and
whitespace retained; build one trie from the syllable vocabulary; then,
for each resulting word token in order, run `word_tokenize` on that
single token with the syllable trie as custom dictionary, appending every
resulting sub-token in order. -/
def syllable_tokenize_spec_composition (env : Env) (s : String) :
    List String :=
  let words :=
    word_tokenize env (.str s) (some (DEFAULT_DICT_TRIE env)) "newmm" true
  let syllable_trie : Trie := ⟨env.thai_syllables⟩
  words.flatMap (fun word =>
    word_tokenize env (.str word) (some syllable_trie) "newmm" true)

/-- The `Tokenizer` facade's state: one bound dictionary trie and one
engine name. -/
structure Tokenizer where
  trie_dict : Trie
  engine : String
  deriving DecidableEq, Repr

/-- `Tokenizer.__init__(custom_dict=None, engine="newmm")`: the trie is
resolved once here — `if custom_dict:` (truthiness test) builds it with
`dict_trie`, otherwise `DEFAULT_DICT_TRIE` is bound.  `none` models an
omitted/`None` argument.  A `dict_trie` failure propagates. -/
def Tokenizer.init (env : Env) (custom_dict : Option DictSource)
    (engine : String) : Except PyErr Tokenizer :=
  match custom_dict with
  | some src =>
    if src.truthy then (dict_trie env src).map (fun t => ⟨t, engine⟩)
    else .ok ⟨DEFAULT_DICT_TRIE env, engine⟩
  | none => .ok ⟨DEFAULT_DICT_TRIE env, engine⟩

/-- `Tokenizer.word_tokenize(text)`: forward to the module-level
`word_tokenize` with the bound trie and the current engine name. -/
def Tokenizer.word_tokenize (env : Env) (tk : Tokenizer) (text : PyText) :
    List String :=
  PyThaiNLP.word_tokenize env text (some tk.trie_dict) tk.engine true

/-- `Tokenizer.set_tokenize_engine(engine)`: replace only the engine-name
field. -/
def Tokenizer.set_tokenize_engine (tk : Tokenizer) (engine : String) :
    Tokenizer :=
  ⟨tk.trie_dict, engine⟩

/-- Concatenation, in order, of a token sequence. -/
def joinTokens : List String → String
  | [] => ""
  | t :: ts => t ++ joinTokens ts

/-- `mentions msg sub` holds when `sub` occurs as a contiguous substring
of `msg` — the formal reading of "the message names the received type". -/
def mentions (msg sub : String) : Bool :=
  msg.data.tails.any (fun suffix => sub.data.isPrefixOf suffix)

/-- The input exhibiting the `maxsplit` slip in
`sent_tokenize(·, "whitespace")`: 34 copies of `"x"` separated by single
spaces, i.e. 33 maximal space runs. -/
def c3_failing_input : String := String.intercalate " " (List.replicate 34 "x")

/-- A concrete environment used to instantiate hypotheses in witnesses:
every external segmenter returns its input as a single token. -/
def env₀ : Env where
  thai_words := ["a"]
  thai_syllables := []
  words_th_frozen := []
  fs := fun _ => none
  newmm_segment := fun s _ => [s]
  longest_segment := fun s _ => [s]
  multi_cut_segment := fun s _ => [s]
  deepcut_segment_with_dict := fun s _ => [s]
  deepcut_segment := fun s => [s]
  icu_segment := fun s => [s]
  tcc_segment := fun s => [s]
  etcc_segment := fun s => [s]

/-! ## Helper lemmas -/

theorem joinTokens_append (l₁ l₂ : List String) :
    joinTokens (l₁ ++ l₂) = joinTokens l₁ ++ joinTokens l₂ := by
  induction l₁ with
  | nil => simp [joinTokens]
  | cons a l ih => simp [joinTokens, ih, String.append_assoc]

theorem joinTokens_flatMap (f : String → List String) (l : List String)
    (h : ∀ w ∈ l, joinTokens (f w) = w) :
    joinTokens (l.flatMap f) = joinTokens l := by
  induction l with
  | nil => rfl
  | cons a l ih =>
    rw [List.flatMap_cons, joinTokens_append, h a (List.mem_cons_self a l),
      ih (fun w hw => h w (List.mem_cons_of_mem a hw))]
    rfl

/-- With whitespace retained, `word_tokenize` returns the engine's
segments unchanged, so it reconstructs the input whenever the selected
engine's `segment` does. -/
theorem word_tokenize_keep_join (env : Env)
    (hnew : ∀ s t, joinTokens (env.newmm_segment s t) = s)
    (hlong : ∀ s t, joinTokens (env.longest_segment s t) = s)
    (hmulti : ∀ s t, joinTokens (env.multi_cut_segment s t) = s)
    (hdeepd : ∀ s ws, joinTokens (env.deepcut_segment_with_dict s ws) = s)
    (hdeep : ∀ s, joinTokens (env.deepcut_segment s) = s)
    (hicu : ∀ s, joinTokens (env.icu_segment s) = s)
    (s : String) (custom_dict : Option Trie) (engine : String) :
    joinTokens (word_tokenize env (.str s) custom_dict engine true) = s := by
  by_cases hs : s = ""
  · simp [word_tokenize, hs, joinTokens]
  · simp only [word_tokenize, if_neg hs]
    repeat' split
    all_goals simp_all [hnew, hlong, hmulti, hdeepd, hdeep, hicu]

theorem word_tokenize_none_eq_default_newmm (env : Env) (text : PyText)
    (keep_whitespace : Bool) :
    word_tokenize env text none "newmm" keep_whitespace =
      word_tokenize env text (some (DEFAULT_DICT_TRIE env)) "newmm"
        keep_whitespace := by
  cases text <;> rfl

theorem dropWhile_space_eq_self (l : List Char) (h : ' ' ∉ l) :
    l.dropWhile (fun c => c == ' ') = l := by
  cases l with
  | nil => rfl
  | cons c cs =>
    simp only [List.mem_cons, not_or] at h
    have hc : ¬((c == ' ') = true) := by
      simpa using fun hcs => h.1 hcs.symm
    rw [List.dropWhile_cons, if_neg hc]

/-! ## Claim theorems -/

/-- Claim C1: for every string input, with whitespace retained, the
concatenation of the tokens returned by `word_tokenize` equals the input
for every engine name, and likewise for `syllable_tokenize` — given the
spec's contract that every external engine's `segment` reconstructs its
input when whitespace is retained. -/
theorem c1_reconstruction (env : Env)
    (hnew : ∀ s t, joinTokens (env.newmm_segment s t) = s)
    (hlong : ∀ s t, joinTokens (env.longest_segment s t) = s)
    (hmulti : ∀ s t, joinTokens (env.multi_cut_segment s t) = s)
    (hdeepd : ∀ s ws, joinTokens (env.deepcut_segment_with_dict s ws) = s)
    (hdeep : ∀ s, joinTokens (env.deepcut_segment s) = s)
    (hicu : ∀ s, joinTokens (env.icu_segment s) = s)
    (s : String) (custom_dict : Option Trie) (engine : String) :
    joinTokens (word_tokenize env (.str s) custom_dict engine true) = s ∧
    joinTokens (syllable_tokenize env (.str s)) = s := by
  refine ⟨word_tokenize_keep_join env hnew hlong hmulti hdeepd hdeep hicu
    s custom_dict engine, ?_⟩
  by_cases hs : s = ""
  · simp [syllable_tokenize, hs, joinTokens]
  · simp only [syllable_tokenize, if_neg hs, dict_trie]
    rw [joinTokens_flatMap]
    · exact word_tokenize_keep_join env hnew hlong hmulti hdeepd hdeep hicu
        s none "newmm"
    · intro w _
      exact word_tokenize_keep_join env hnew hlong hmulti hdeepd hdeep hicu
        w (some ⟨env.thai_syllables⟩) "newmm"

/-- Witness for C1 at a concrete environment and input. -/
theorem c1_reconstruction_witness :
    joinTokens (word_tokenize env₀ (.str "ab") none "newmm" true) = "ab" ∧
    joinTokens (syllable_tokenize env₀ (.str "ab")) = "ab" :=
  c1_reconstruction env₀
    (fun _ _ => by simp [env₀, joinTokens])
    (fun _ _ => by simp [env₀, joinTokens])
    (fun _ _ => by simp [env₀, joinTokens])
    (fun _ _ => by simp [env₀, joinTokens])
    (fun _ => by simp [env₀, joinTokens])
    (fun _ => by simp [env₀, joinTokens])
    "ab" none "newmm"

/-- Claim C2: for every non-empty string input, `syllable_tokenize`
equals the spec's composition — a `newmm` word pass with the default word
dictionary and whitespace retained, one trie built from the syllable
vocabulary, then a per-token `newmm` pass with that trie as custom
dictionary, concatenated in order. -/
theorem c2_syllable_is_spec_composition (env : Env) (s : String)
    (hs : s ≠ "") :
    syllable_tokenize env (.str s) = syllable_tokenize_spec_composition env s := by
  simp only [syllable_tokenize, syllable_tokenize_spec_composition,
    if_neg hs, dict_trie]
  rw [word_tokenize_none_eq_default_newmm]

/-- Witness for C2 at a concrete environment and input. -/
theorem c2_syllable_is_spec_composition_witness :
    syllable_tokenize env₀ (.str "ab") =
      syllable_tokenize_spec_composition env₀ "ab" :=
  c2_syllable_is_spec_composition env₀ "ab" (by decide)

/-- Claim C3, behavior of the code at the failing input: the source
passes `re.U` (value 32) in `re.split`'s `maxsplit` position, so an input
with 33 maximal space runs is split only at the first 32 of them (33
segments, the last still containing a space), while the claimed behavior
(split at every maximal space run) yields 34 segments; on inputs with few
space runs — such as the claim's own example `"a b\nc"` — the two
agree. -/
theorem c3_sent_whitespace_maxsplit_bug :
    sent_tokenize (.str c3_failing_input) "whitespace" =
      List.replicate 32 "x" ++ ["x x"] ∧
    splitOnAllSpaceRuns c3_failing_input = List.replicate 34 "x" ∧
    sent_tokenize (.str c3_failing_input) "whitespace" ≠
      splitOnAllSpaceRuns c3_failing_input ∧
    sent_tokenize (.str "a b\nc") "whitespace" = ["a", "b\nc"] := by
  have h1 : sent_tokenize (.str c3_failing_input) "whitespace" =
      List.replicate 32 "x" ++ ["x x"] := by decide
  have h2 : splitOnAllSpaceRuns c3_failing_input =
      List.replicate 34 "x" := by decide
  refine ⟨h1, h2, ?_, by decide⟩
  rw [h1, h2]
  decide

/-- Claim C4: on every entry point, an empty-string or non-string input
yields the empty token sequence for every choice of the other
arguments. -/
theorem c4_empty_and_nonstring_input (env : Env) (custom_dict : Option Trie)
    (engine : String) (keep_whitespace : Bool) :
    word_tokenize env .nonstr custom_dict engine keep_whitespace = [] ∧
    word_tokenize env (.str "") custom_dict engine keep_whitespace = [] ∧
    sent_tokenize .nonstr engine = [] ∧
    sent_tokenize (.str "") engine = [] ∧
    subword_tokenize env .nonstr engine = [] ∧
    subword_tokenize env (.str "") engine = [] ∧
    syllable_tokenize env .nonstr = [] ∧
    syllable_tokenize env (.str "") = [] :=
  ⟨rfl, rfl, rfl, rfl, rfl, rfl, rfl, rfl⟩

/-- Claim C5: `word_tokenize` with an engine name outside the recognized
set behaves exactly as with `engine="newmm"`, for every text, custom
dictionary and `keep_whitespace` value. -/
theorem c5_unrecognized_engine_is_newmm (env : Env) (text : PyText)
    (custom_dict : Option Trie) (keep_whitespace : Bool) (engine : String)
    (h : engine ∉ (["newmm", "onecut", "longest", "mm", "multi_cut",
      "deepcut", "ulmfit", "icu"] : List String)) :
    word_tokenize env text custom_dict engine keep_whitespace =
      word_tokenize env text custom_dict "newmm" keep_whitespace := by
  simp only [List.mem_cons, List.not_mem_nil, or_false, not_or] at h
  obtain ⟨h1, h2, h3, h4, h5, h6, h7, h8⟩ := h
  cases text with
  | nonstr => rfl
  | str s =>
    by_cases hs : s = ""
    · simp [word_tokenize, hs]
    · simp [word_tokenize, hs, h1, h2, h3, h4, h5, h6, h7, h8]

/-- Witness for C5 at a concrete unrecognized engine name. -/
theorem c5_unrecognized_engine_is_newmm_witness :
    word_tokenize env₀ (.str "ab") none "nonexistent_name" true =
      word_tokenize env₀ (.str "ab") none "newmm" true :=
  c5_unrecognized_engine_is_newmm env₀ (.str "ab") none true
    "nonexistent_name" (by decide)

/-- Claim C6: for every engine and input, `keep_whitespace=false` applies
exactly the post-processing "strip the ASCII space from both ends of each
token and drop the tokens that become empty" to the
`keep_whitespace=true` output; `stripSpaces` leaves any token without
ASCII spaces (embedded tabs and newlines included) unchanged. -/
theorem c6_keep_whitespace_false_postprocess (env : Env) (text : PyText)
    (custom_dict : Option Trie) (engine : String) :
    word_tokenize env text custom_dict engine false =
      (word_tokenize env text custom_dict engine true).filterMap
        (fun token =>
          let t := stripSpaces token
          if t = "" then none else some t) ∧
    (∀ t : String, ' ' ∉ t.data → stripSpaces t = t) := by
  constructor
  · cases text with
    | nonstr => rfl
    | str s =>
      by_cases hs : s = ""
      · simp [word_tokenize, hs]
      · simp only [word_tokenize, if_neg hs]
        rfl
  · intro t ht
    cases t with
    | mk l =>
      simp only [stripSpaces]
      rw [dropWhile_space_eq_self l ht,
        dropWhile_space_eq_self l.reverse (by simpa using ht),
        List.reverse_reverse]

/-- Witness for C6 at a concrete environment, input and token. -/
theorem c6_keep_whitespace_false_postprocess_witness :
    word_tokenize env₀ (.str "a b") none "newmm" false =
      (word_tokenize env₀ (.str "a b") none "newmm" true).filterMap
        (fun token =>
          let t := stripSpaces token
          if t = "" then none else some t) ∧
    stripSpaces "a\tb" = "a\tb" :=
  ⟨(c6_keep_whitespace_false_postprocess env₀ (.str "a b") none "newmm").1,
   (c6_keep_whitespace_false_postprocess env₀ (.str "a b") none "newmm").2
     "a\tb" (by decide)⟩

/-- Claim C7 counterexample: `dict_trie` on a value of another type (a
number, Python type name `"int"`) does raise, but the raised `TypeError`
carries a fixed message that does not name the received type — it names
the supported source types instead. -/
theorem c7_message_counterexample :
    dict_trie env₀ (.other "int" true) =
      .error (.typeError dict_source_type_error_msg) ∧
    mentions dict_source_type_error_msg "int" = false :=
  ⟨rfl, by decide⟩

/-- Claim C7, amended: for every argument that is neither a trie, nor a
path string, nor an iterable of strings, `dict_trie` fails with a
`TypeError` (the spec's UnsupportedDictionarySource) whose fixed message
names the supported source types, and returns no trie. -/
theorem c7_dict_trie_rejects_other_types (env : Env) (typeName : String)
    (isTruthy : Bool) :
    dict_trie env (.other typeName isTruthy) =
      .error (.typeError dict_source_type_error_msg) := rfl

/-- Claim C8: `word_tokenize` with `engine="ulmfit"` ignores the supplied
`custom_dict` and equals `word_tokenize` with `engine="newmm"` and the
process-wide frozen trie as the dictionary, for every text and
`keep_whitespace` value. -/
theorem c8_ulmfit_uses_frozen_trie (env : Env) (text : PyText)
    (custom_dict : Option Trie) (keep_whitespace : Bool) :
    word_tokenize env text custom_dict "ulmfit" keep_whitespace =
      word_tokenize env text (some (FROZEN_DICT_TRIE env)) "newmm"
        keep_whitespace := by
  cases text <;> rfl

/-- Claim C9 counterexample: a `Tokenizer` constructed with a given but
empty (falsy) dictionary argument does not resolve it through the
dictionary-builder contract — `dict_trie` on the empty iterable yields
the empty trie, but the facade binds the process-wide default trie
instead. -/
theorem c9_empty_custom_dict_counterexample :
    Tokenizer.init env₀ (some (.iter [])) "newmm" =
      .ok ⟨DEFAULT_DICT_TRIE env₀, "newmm"⟩ ∧
    dict_trie env₀ (.iter []) = .ok ⟨[]⟩ ∧
    DEFAULT_DICT_TRIE env₀ ≠ (⟨[]⟩ : Trie) := by
  refine ⟨rfl, rfl, ?_⟩
  decide

/-- Claim C9, amended: the facade resolves its dictionary exactly once at
construction — a given truthy (non-empty) argument via the
dictionary-builder contract; the process-wide default trie when no
argument is given or the given argument is empty/falsy — its
`word_tokenize(text)` method forwards to the module-level `word_tokenize`
with the bound trie and the current engine name, `set_tokenize_engine`
mutates only the engine-name field and leaves the bound trie unchanged,
and repeated calls on the same input return identical results. -/
theorem c9_facade_contract (env : Env) (engine engine2 : String) :
    (∀ src : DictSource, src.truthy = true →
      Tokenizer.init env (some src) engine =
        (dict_trie env src).map (fun t => ⟨t, engine⟩)) ∧
    (∀ src : DictSource, src.truthy = false →
      Tokenizer.init env (some src) engine =
        .ok ⟨DEFAULT_DICT_TRIE env, engine⟩) ∧
    Tokenizer.init env none engine = .ok ⟨DEFAULT_DICT_TRIE env, engine⟩ ∧
    (∀ (tk : Tokenizer) (text : PyText),
      tk.word_tokenize env text =
        word_tokenize env text (some tk.trie_dict) tk.engine true) ∧
    (∀ tk : Tokenizer,
      (tk.set_tokenize_engine engine2).trie_dict = tk.trie_dict ∧
      (tk.set_tokenize_engine engine2).engine = engine2) ∧
    (∀ (tk : Tokenizer) (text : PyText),
      tk.word_tokenize env text = tk.word_tokenize env text) := by
  refine ⟨fun src h => ?_, fun src h => ?_, rfl, fun tk text => rfl,
    fun tk => ⟨rfl, rfl⟩, fun tk text => rfl⟩
  · simp [Tokenizer.init, h]
  · simp [Tokenizer.init, h]

/-- Witness for C9's amended contract at concrete dictionary sources. -/
theorem c9_facade_contract_witness :
    Tokenizer.init env₀ (some (.iter ["b"])) "newmm" =
      (dict_trie env₀ (.iter ["b"])).map (fun t => ⟨t, "newmm"⟩) ∧
    Tokenizer.init env₀ (some (.iter [])) "newmm" =
      .ok ⟨DEFAULT_DICT_TRIE env₀, "newmm"⟩ :=
  ⟨(c9_facade_contract env₀ "newmm" "longest").1 (.iter ["b"]) (by decide),
   (c9_facade_contract env₀ "newmm" "longest").2.1 (.iter []) (by decide)⟩

/-- Claim C10: the deprecated `dict_word_tokenize` returns exactly the
tokens of `word_tokenize` with the same arguments, its only extra effect
is the deprecation line on stderr, and its `custom_dict` parameter
defaults to the process-wide default trie. -/
theorem c10_dict_word_tokenize_delegates (env : Env) (text : PyText)
    (custom_dict : Trie) (engine : String) (keep_whitespace : Bool) :
    (dict_word_tokenize env text (some custom_dict) engine
        keep_whitespace).1 =
      word_tokenize env text (some custom_dict) engine keep_whitespace ∧
    (dict_word_tokenize env text none engine keep_whitespace).1 =
      word_tokenize env text (some (DEFAULT_DICT_TRIE env)) engine
        keep_whitespace ∧
    (dict_word_tokenize env text (some custom_dict) engine
        keep_whitespace).2 = [deprecation_msg] ∧
    (dict_word_tokenize env text none engine keep_whitespace).2 =
      [deprecation_msg] :=
  ⟨rfl, rfl, rfl, rfl⟩

end PyThaiNLP
